import Mathlib

/-
Verification of the batching, polling, credential and mirroring logic of the
mobility-data-lifecycle-manager repository (sync_logic.py and utils.py),
via a shallow embedding in Lean.

Modelling conventions:
* Dates are day ordinals (Nat); Python datetime arithmetic with timedelta(days=k)
  corresponds to Nat addition, and date comparison to Nat comparison.
* Python str.lower / str.strip / str.replace are modelled character-wise on
  String.data (the city fields are plain ASCII names in cities.json).
* External effects (HTTP responses, subprocess outcomes, clock readings) are
  supplied as explicit oracle arguments, so each loop is a pure function of the
  sequence of outcomes it would observe; alongside its result it returns the
  number of external calls it made, which the source claims are about.
* Python dict returns are modelled by small inductive result types whose
  constructors are in bijection with the distinct return statements of the
  corresponding Python function.
-/

/-- Character-wise lower-casing, modelling Python str.lower on ASCII data. -/
def pyLower (s : String) : String := String.mk (s.data.map Char.toLower)

/-- Model of Python str.replace applied to the single-character pattern
a space with replacement underscore, as used throughout sync_logic.py. -/
def pyReplaceSpaceUnderscore (s : String) : String :=
  String.mk (s.data.map fun c => if c = ' ' then '_' else c)

/-- Model of Python str.strip: drop leading and trailing whitespace. -/
def pyStrip (s : String) : String :=
  String.mk (((s.data.dropWhile Char.isWhitespace).reverse.dropWhile Char.isWhitespace).reverse)

/-- Check whether the first list occurs at the start of the second. -/
def startsWithChars : List Char → List Char → Bool
  | [], _ => true
  | _ :: _, [] => false
  | a :: as, b :: bs => a = b && startsWithChars as bs

/-- Check whether the first list occurs contiguously anywhere in the second. -/
def containsChars (pat : List Char) : List Char → Bool
  | [] => startsWithChars pat []
  | c :: cs => startsWithChars pat (c :: cs) || containsChars pat cs

/-- Model of the Python substring test, as in the expression
"ExpiredToken" in error_msg of sync_logic.py line 311. -/
def pyInStr (pat s : String) : Bool := containsChars pat.data s.data

/-- Minimal JSON value model for vendor API request and response bodies. -/
inductive Json where
  | null
  | bool (b : Bool)
  | num (n : Int)
  | str (s : String)
  | arr (elems : List Json)
  | obj (fields : List (String × Json))

/-- Python truthiness of a JSON value: None, False, 0, empty string, empty
list and empty dict are falsy, everything else truthy. -/
def Json.truthy : Json → Bool
  | .null => false
  | .bool b => b
  | .num n => n != 0
  | .str s => s != ""
  | .arr xs => !xs.isEmpty
  | .obj fs => !fs.isEmpty

/-- Model of dict.get with no default: key lookup on an object, None otherwise. -/
def Json.get? : Json → String → Option Json
  | .obj fs, k => fs.lookup k
  | _, _ => none

/-- True when the value is an object that binds the given key. -/
def Json.hasKey (j : Json) (k : String) : Bool := (j.get? k).isSome

/-- True exactly for JSON objects, i.e. values that Python would return as a dict. -/
def Json.isObj : Json → Bool
  | .obj _ => true
  | _ => false

/-- City record as read from cities.json. A field of value none models the
key being absent from the dict; radius_meters of some 0 models a present but
falsy value, matching the truthiness tests of build_sync_payload.
Latitude and longitude are carried opaquely (their numeric type is
irrelevant to every claim here). -/
structure City where
  city : String
  country : String
  state_province : String
  latitude : Int
  longitude : Int
  radius_meters : Option Int
  polygon_geojson : Option Json

/-- Truthiness test on line 67 of sync_logic.py:
radius_meters key present and its value truthy. -/
def hasRadius (c : City) : Bool :=
  match c.radius_meters with
  | some r => r != 0
  | none => false

/-- Truthiness test on line 74 of sync_logic.py:
polygon_geojson key present and its value truthy. -/
def hasPolygon (c : City) : Bool :=
  match c.polygon_geojson with
  | some j => j.truthy
  | none => false

/-- Model of chunk_cities from sync_logic.py lines 37 to 42: successive slices
cities[i : i + chunk_size] for i = 0, chunk_size, 2 * chunk_size, ...
The chunk_size = 0 guard only serves termination; Python range would raise for
a zero step, and every caller passes the default 200. -/
def chunk_cities (chunk_size : Nat) (cities : List α) : List (List α) :=
  if _h : cities.length = 0 ∨ chunk_size = 0 then []
  else cities.take chunk_size :: chunk_cities chunk_size (cities.drop chunk_size)
termination_by cities.length
decreasing_by
  simp only [List.length_drop]
  omega

theorem chunk_cities_length (n : Nat) (hn : 0 < n) (l : List α) :
    (chunk_cities n l).length = (l.length + n - 1) / n := by
  induction l using chunk_cities.induct n with
  | case1 l h =>
    rw [chunk_cities, dif_pos h]
    rcases h with h | h
    · rw [h, List.length_nil]
      rw [Nat.div_eq_of_lt (by omega)]
    · omega
  | case2 l h ih =>
    rw [chunk_cities, dif_neg h]
    push_neg at h
    simp only [List.length_cons, ih, List.length_drop]
    rcases Nat.lt_or_ge l.length n with hlt | hge
    · have h1 : l.length - n = 0 := by omega
      rw [h1]
      rw [Nat.div_eq_of_lt (by omega)]
      have h2 : l.length + n - 1 = (l.length - 1) + n := by omega
      rw [h2, Nat.add_div_right _ hn, Nat.div_eq_of_lt (by omega)]
    · have h2 : l.length + n - 1 = (l.length - n + n - 1) + n := by omega
      rw [h2, Nat.add_div_right _ hn]

theorem chunk_cities_mem_length (n : Nat) (l : List α) (c : List α)
    (hc : c ∈ chunk_cities n l) : c.length ≤ n := by
  induction l using chunk_cities.induct n with
  | case1 l h =>
    rw [chunk_cities, dif_pos h] at hc
    exact absurd hc (List.not_mem_nil c)
  | case2 l h ih =>
    rw [chunk_cities, dif_neg h] at hc
    rcases List.mem_cons.mp hc with rfl | hc
    · simp
    · exact ih hc

theorem chunk_cities_flatten (n : Nat) (hn : 0 < n) (l : List α) :
    (chunk_cities n l).flatten = l := by
  induction l using chunk_cities.induct n with
  | case1 l h =>
    rw [chunk_cities, dif_pos h]
    rcases h with h | h
    · simp [List.eq_nil_of_length_eq_zero h]
    · omega
  | case2 l h ih =>
    rw [chunk_cities, dif_neg h]
    rw [List.flatten_cons, ih]
    exact List.take_append_drop n l

/-- C3: for every city list of length N, chunk_cities with chunk_size = 200
returns exactly ceil(N/200) batches (here written with Nat division as
(N + 200 - 1) / 200), each of size at most 200, whose concatenation equals the
original list in the original order. -/
theorem chunk_cities_spec (cities : List α) :
    (chunk_cities 200 cities).length = (cities.length + 200 - 1) / 200 ∧
    (∀ b ∈ chunk_cities 200 cities, b.length ≤ 200) ∧
    (chunk_cities 200 cities).flatten = cities :=
  ⟨chunk_cities_length 200 (by omega) cities,
   fun b hb => chunk_cities_mem_length 200 cities b hb,
   chunk_cities_flatten 200 (by omega) cities⟩

/-- Model of split_date_range from sync_logic.py lines 337 to 348, with dates
as day ordinals: while current <= to_date, emit
(current, min (current + max_days - 1) to_date) and restart the day after the
emitted end. -/
def split_date_range (from_date to_date : Nat) (max_days : Nat) : List (Nat × Nat) :=
  if h : from_date ≤ to_date then
    (from_date, min (from_date + (max_days - 1)) to_date) ::
      split_date_range (min (from_date + (max_days - 1)) to_date + 1) to_date max_days
  else []
termination_by to_date + 1 - from_date
decreasing_by omega

theorem split_date_range_head (f t m : Nat) (h : f ≤ t) :
    (split_date_range f t m).head? = some (f, min (f + (m - 1)) t) := by
  rw [split_date_range, dif_pos h]
  rfl

theorem split_date_range_nil (f t m : Nat) (h : ¬ f ≤ t) :
    split_date_range f t m = [] := by
  rw [split_date_range, dif_neg h]

theorem split_date_range_length (f t m : Nat) :
    0 < m → f ≤ t → (split_date_range f t m).length = (t + 1 - f + m - 1) / m := by
  induction f, t, m using split_date_range.induct with
  | case1 f t m hf ih =>
    intro hm h
    rw [split_date_range, dif_pos hf, List.length_cons]
    rcases Nat.lt_or_ge (f + (m - 1)) t with hlt | hge
    · have he : min (f + (m - 1)) t = f + (m - 1) := by omega
      rw [he] at ih ⊢
      rw [ih hm (by omega)]
      have h2 : t + 1 - f + m - 1 = (t + 1 - (f + (m - 1) + 1) + m - 1) + m := by omega
      rw [h2, Nat.add_div_right _ hm]
    · have he : min (f + (m - 1)) t = t := by omega
      rw [he]
      rw [split_date_range_nil _ _ _ (by omega), List.length_nil]
      have h2 : t + 1 - f + m - 1 = (t - f) + m := by omega
      rw [h2, Nat.add_div_right _ hm, Nat.div_eq_of_lt (by omega)]
  | case2 f t m hf => omega

theorem split_date_range_bounds (f t m : Nat) (hm : 0 < m) :
    ∀ p ∈ split_date_range f t m,
      f ≤ p.1 ∧ p.1 ≤ p.2 ∧ p.2 ≤ t ∧ p.2 + 1 - p.1 ≤ m := by
  induction f, t, m using split_date_range.induct with
  | case1 f t m hf ih =>
    rw [split_date_range, dif_pos hf]
    intro p hp
    rcases List.mem_cons.mp hp with rfl | hp
    · simp only
      omega
    · have := ih hm p hp
      omega
  | case2 f t m hf =>
    rw [split_date_range_nil _ _ _ hf]
    intro p hp
    exact absurd hp (List.not_mem_nil p)

theorem split_date_range_chain (f t m : Nat) :
    List.Chain' (fun p q => q.1 = p.2 + 1) (split_date_range f t m) := by
  induction f, t, m using split_date_range.induct with
  | case1 f t m hf ih =>
    rw [split_date_range, dif_pos hf]
    rw [List.chain'_cons']
    refine ⟨?_, ih⟩
    intro q hq
    rcases Nat.lt_or_ge t (min (f + (m - 1)) t + 1) with h2 | h2
    · rw [split_date_range_nil _ _ _ (by omega)] at hq
      simp at hq
    · rw [split_date_range_head _ _ _ h2] at hq
      simp only [Option.mem_def, Option.some.injEq] at hq
      rw [← hq]
  | case2 f t m hf =>
    rw [split_date_range_nil _ _ _ hf]
    exact List.chain'_nil

theorem split_date_range_coverage (f t m : Nat) (d : Nat) :
    (split_date_range f t m).countP (fun p => p.1 ≤ d && d ≤ p.2) =
      if f ≤ d ∧ d ≤ t then 1 else 0 := by
  induction f, t, m using split_date_range.induct with
  | case1 f t m hf ih =>
    rw [split_date_range, dif_pos hf, List.countP_cons, ih]
    simp only [decide_eq_true_eq, Bool.and_eq_true]
    split_ifs <;> omega
  | case2 f t m hf =>
    rw [split_date_range_nil _ _ _ hf, List.countP_nil]
    rw [if_neg (by omega)]

/-- C2: for every inclusive date range of length L = to + 1 - from days,
split_date_range with max_days = 31 returns exactly ceil(L/31) chunks
(written (L + 31 - 1) / 31), each chunk lies inside the range and spans at
most 31 days, consecutive chunks are contiguous (each starts the day after
the previous one ends, hence they are chronological and non-overlapping),
the first chunk starts at from, and every day of the range is covered by
exactly one chunk while days outside the range are covered by none. -/
theorem split_date_range_spec (from_date to_date : Nat) (h : from_date ≤ to_date) :
    (split_date_range from_date to_date 31).length =
        (to_date + 1 - from_date + 31 - 1) / 31 ∧
    (∀ p ∈ split_date_range from_date to_date 31,
        from_date ≤ p.1 ∧ p.1 ≤ p.2 ∧ p.2 ≤ to_date ∧ p.2 + 1 - p.1 ≤ 31) ∧
    List.Chain' (fun p q => q.1 = p.2 + 1) (split_date_range from_date to_date 31) ∧
    (split_date_range from_date to_date 31).head? =
        some (from_date, min (from_date + 30) to_date) ∧
    (∀ d, (split_date_range from_date to_date 31).countP
        (fun p => p.1 ≤ d && d ≤ p.2) = if from_date ≤ d ∧ d ≤ to_date then 1 else 0) :=
  ⟨split_date_range_length from_date to_date 31 (by omega) h,
   split_date_range_bounds from_date to_date 31 (by omega),
   split_date_range_chain from_date to_date 31,
   split_date_range_head from_date to_date 31 h,
   fun d => split_date_range_coverage from_date to_date 31 d⟩

/-- Witness for split_date_range_spec at the concrete 62-day range 0..61. -/
theorem split_date_range_spec_witness :
    0 ≤ 61 ∧ (split_date_range 0 61 31).length = (61 + 1 - 0 + 31 - 1) / 31 :=
  ⟨by omega, (split_date_range_spec 0 61 (by omega)).1⟩

/-- Identifier prefixed to poi ids in build_sync_payload line 66:
city['city'].lower().replace(' ', '_') (note: no strip here, unlike the
destination-path normalization). -/
def poiIdCity (c : City) : String := pyReplaceSpaceUnderscore (pyLower c.city)

/-- Entry appended to geo_radius on lines 68 to 73 of sync_logic.py. -/
structure GeoRadiusEntry where
  poi_id : String
  latitude : Int
  longitude : Int
  distance_in_meters : Int

def mkRadiusEntry (c : City) : GeoRadiusEntry :=
  { poi_id := poiIdCity c ++ "_center"
    latitude := c.latitude
    longitude := c.longitude
    distance_in_meters := c.radius_meters.getD 0 }

/-- Entry appended to geo_json on lines 75 to 78 of sync_logic.py. -/
structure GeoJsonEntry where
  poi_id : String
  geo_json : Json

/-- Geometry extraction on line 77: the 'geometry' member when the polygon
object has one, otherwise the polygon value itself. -/
def polygonGeometry (j : Json) : Json :=
  match j.get? "geometry" with
  | some g => g
  | none => j

def mkGeoJsonEntry (c : City) : GeoJsonEntry :=
  { poi_id := poiIdCity c ++ "_polygon"
    geo_json := polygonGeometry (c.polygon_geojson.getD Json.null) }

/-- The geo_radius accumulator of the loop on lines 65 to 78: one entry per
city whose radius_meters is present and truthy, in list order. -/
def geoRadiusList : List City → List GeoRadiusEntry
  | [] => []
  | c :: cs =>
      if hasRadius c then mkRadiusEntry c :: geoRadiusList cs
      else geoRadiusList cs

/-- The geo_json accumulator of the same loop: one entry per city whose
radius_meters is absent or falsy and whose polygon_geojson is present and
truthy (the elif on line 74), in list order. -/
def geoJsonList : List City → List GeoJsonEntry
  | [] => []
  | c :: cs =>
      if hasRadius c then geoJsonList cs
      else if hasPolygon c then mkGeoJsonEntry c :: geoJsonList cs
      else geoJsonList cs

/-- Payload assembled by build_sync_payload (sync_logic.py lines 44 to 85).
A geography field of none models the key being omitted from the payload
dict, which lines 80 to 83 do exactly when the accumulated array is falsy,
that is empty. -/
structure SyncPayload where
  from_date : String
  to_date : String
  schema_type : String
  geo_radius : Option (List GeoRadiusEntry)
  geo_json : Option (List GeoJsonEntry)

def build_sync_payload (cities : List City) (from_date to_date : String)
    (schema_type : String) : SyncPayload :=
  { from_date := from_date
    to_date := to_date
    schema_type := schema_type
    geo_radius :=
      if (geoRadiusList cities).isEmpty then none else some (geoRadiusList cities)
    geo_json :=
      if (geoJsonList cities).isEmpty then none else some (geoJsonList cities) }

theorem geoRadiusList_eq_filter (cities : List City) :
    geoRadiusList cities = (cities.filter hasRadius).map mkRadiusEntry := by
  induction cities with
  | nil => rfl
  | cons c cs ih =>
      by_cases h : hasRadius c
      · simp [geoRadiusList, List.filter_cons, h, ih]
      · simp [geoRadiusList, List.filter_cons, h, ih]

theorem geoJsonList_eq_filter (cities : List City) :
    geoJsonList cities =
      (cities.filter fun c => !hasRadius c && hasPolygon c).map mkGeoJsonEntry := by
  induction cities with
  | nil => rfl
  | cons c cs ih =>
      by_cases h : hasRadius c
      · simp [geoJsonList, List.filter_cons, h, ih]
      · by_cases h2 : hasPolygon c
        · simp [geoJsonList, List.filter_cons, h, h2, ih]
        · simp [geoJsonList, List.filter_cons, h, h2, ih]

theorem geoRadiusList_eq_nil_iff (cities : List City) :
    geoRadiusList cities = [] ↔ ∀ c ∈ cities, hasRadius c = false := by
  rw [geoRadiusList_eq_filter]
  simp [List.filter_eq_nil_iff]

theorem geoJsonList_eq_nil_iff (cities : List City) :
    geoJsonList cities = [] ↔
      ∀ c ∈ cities, hasRadius c = false → hasPolygon c = false := by
  rw [geoJsonList_eq_filter]
  simp only [List.map_eq_nil_iff, List.filter_eq_nil_iff]
  constructor
  · intro h c hc hr
    have := h c hc
    simp only [Bool.and_eq_true, Bool.not_eq_true', not_and] at this
    cases hp : hasPolygon c
    · rfl
    · exact absurd hp (by simpa [hr] using this)
  · intro h c hc
    simp only [Bool.and_eq_true, Bool.not_eq_true', not_and]
    intro hr
    simp [h c hc hr]

/-- C10: in build_sync_payload every city contributes to at most one of the
two geography arrays. The geo_radius array is exactly one entry per city with
a truthy radius_meters, in order; the geo_json array is exactly one entry per
city with a falsy or absent radius_meters and a truthy polygon_geojson, in
order, so a city with both a radius and a polygon appears only in geo_radius;
and each key is omitted (none) exactly when its array would be empty. -/
theorem build_sync_payload_geo_spec (cities : List City) (fd td st : String) :
    ((build_sync_payload cities fd td st).geo_radius =
        if ((cities.filter hasRadius).map mkRadiusEntry).isEmpty then none
        else some ((cities.filter hasRadius).map mkRadiusEntry)) ∧
    ((build_sync_payload cities fd td st).geo_json =
        if (((cities.filter fun c => !hasRadius c && hasPolygon c).map
              mkGeoJsonEntry)).isEmpty then none
        else some ((cities.filter fun c => !hasRadius c && hasPolygon c).map
              mkGeoJsonEntry)) ∧
    ((build_sync_payload cities fd td st).geo_radius = none ↔
        ∀ c ∈ cities, hasRadius c = false) ∧
    ((build_sync_payload cities fd td st).geo_json = none ↔
        ∀ c ∈ cities, hasRadius c = false → hasPolygon c = false) := by
  have hr := geoRadiusList_eq_filter cities
  have hj := geoJsonList_eq_filter cities
  refine ⟨?_, ?_, ?_, ?_⟩
  · rw [build_sync_payload]
    simp only [← hr]
  · rw [build_sync_payload]
    simp only [← hj]
  · rw [build_sync_payload]
    simp only
    rw [← geoRadiusList_eq_nil_iff]
    rcases h : geoRadiusList cities with _ | ⟨e, l⟩ <;> simp [h]
  · rw [build_sync_payload]
    simp only
    rw [← geoJsonList_eq_nil_iff]
    rcases h : geoJsonList cities with _ | ⟨e, l⟩ <;> simp [h]

/-- Outcome of the single requests.request call inside make_api_request
(sync_logic.py lines 87 to 117). A network-level failure raises a
RequestException; otherwise a response arrives with a status code, a body
text, and the result of attempting resp.json() on that body (none when the
body is not valid JSON, in which case resp.json() raises). -/
inductive HttpOutcome where
  | network_failure (msg : String)
  | response (status : Nat) (body : String) (parsed : Option Json)

/-- True exactly when requests' Response.raise_for_status raises an
HTTPError, namely for client-error and server-error status codes. -/
def raisesForStatus (status : Nat) : Bool := 400 ≤ status && status < 600

/-- Model of make_api_request from sync_logic.py lines 87 to 117. The dict
returns of the source map to Json.obj values: the HTTPError handler and the
RequestException handler each return an object with an 'error' key, a 2xx
(more precisely, non-raising) response whose body fails JSON parsing returns
an object with an 'error' key, and otherwise the parsed body is returned as
is. The function is total: no outcome escapes as an exception. -/
def make_api_request (o : HttpOutcome) : Json :=
  match o with
  | .network_failure msg =>
      .obj [("error", .str ("API request error: " ++ msg))]
  | .response status body parsed =>
      if raisesForStatus status then
        .obj [("error", .str ("API request error: HTTP " ++ toString status
          ++ ". Detail: " ++ body))]
      else
        match parsed with
        | some j => j
        | none => .obj [("error", .str ("Non-JSON response: " ++ body))]

/-- C9 (amended): make_api_request is a total function of the HTTP outcome
(it never propagates an exception), and every failure is observable via an
'error' key: a network-level failure yields an object with an 'error' key, a
response with a 4xx or 5xx status yields an object with an 'error' key, a
non-raising response whose body is not valid JSON yields an object with an
'error' key, and a non-raising response with a valid JSON body is returned
exactly as parsed, hence is a dictionary precisely when the body is a JSON
object. -/
theorem make_api_request_spec (o : HttpOutcome) :
    (∀ msg, o = .network_failure msg →
        (make_api_request o).hasKey "error" = true) ∧
    (∀ status body parsed, o = .response status body parsed →
        400 ≤ status → status < 600 →
        (make_api_request o).hasKey "error" = true) ∧
    (∀ status body, o = .response status body none →
        (make_api_request o).hasKey "error" = true) ∧
    (∀ status body j, o = .response status body (some j) →
        raisesForStatus status = false → make_api_request o = j) := by
  refine ⟨?_, ?_, ?_, ?_⟩
  · rintro msg rfl
    rfl
  · rintro status body parsed rfl h4 h6
    have hr : raisesForStatus status = true := by
      simp [raisesForStatus]
      omega
    simp [make_api_request, hr]
    rfl
  · rintro status body rfl
    rw [make_api_request]
    by_cases hr : raisesForStatus status <;> simp [hr] <;> rfl
  · rintro status body j rfl hr
    simp [make_api_request, hr]

/-- C9 counterexample: on a 304 response (neither 2xx nor an error status
raised by raise_for_status) whose body parses to a JSON array, the source
returns the parsed array unchanged, so make_api_request does not always
return a dictionary and a non-2xx response does not always carry an 'error'
key. -/
theorem make_api_request_counterexample :
    make_api_request (.response 304 "[1]" (some (.arr [.num 1]))) = .arr [.num 1] ∧
    (make_api_request (.response 304 "[1]" (some (.arr [.num 1])))).isObj = false ∧
    (make_api_request (.response 304 "[1]" (some (.arr [.num 1])))).hasKey "error"
        = false ∧
    ¬ (200 ≤ 304 ∧ 304 < 300) :=
  ⟨rfl, rfl, rfl, by omega⟩

/-- One response of the job-status API, as consumed by a single iteration of
wait_for_job_completion (sync_logic.py lines 122 to 173). apiErr covers a
falsy response or a response carrying an 'error' key (line 132); malformed
covers a response on which reading status['data']['status'] raises, which
lands in the except handler on line 164; jobStatus carries the status string
together with the s3_location and error_message fields the loop may read. -/
inductive PollResponse where
  | apiErr (msg : String)
  | malformed (msg : String)
  | jobStatus (status : String) (s3_location : String) (error_message : String)

/-- Return value of wait_for_job_completion. The constructors are in
bijection with the return statements of the source: success with the
reported s3_location (line 149), the FAILED error return (line 153), the
CANCELLED error return (line 156), the two exhausted-while-erroring returns
(lines 142 and 170), and the timeout error return (line 173). -/
inductive WaitResult where
  | success (s3_location : String)
  | jobFailed (error_message : String)
  | cancelled
  | apiErrExhausted (msg : String)
  | excExhausted (msg : String)
  | timeout

/-- Poll loop of wait_for_job_completion starting at a given attempt index,
driven by the oracle of successive status responses. Besides the result it
returns the number of get_job_status calls the loop makes from this attempt
on: every iteration makes exactly one status call before inspecting the
response. SUCCESS, FAILED and CANCELLED return immediately; RUNNING,
SCHEDULED and any unknown status sleep and continue; an apiErr or malformed
response continues unless this is the final attempt. -/
def waitGo (polls : Nat → PollResponse) (max_attempts attempt : Nat) :
    WaitResult × Nat :=
  if h : attempt < max_attempts then
    match polls attempt with
    | .apiErr msg =>
        if attempt < max_attempts - 1 then
          ((waitGo polls max_attempts (attempt + 1)).1,
           (waitGo polls max_attempts (attempt + 1)).2 + 1)
        else (.apiErrExhausted msg, 1)
    | .malformed msg =>
        if attempt < max_attempts - 1 then
          ((waitGo polls max_attempts (attempt + 1)).1,
           (waitGo polls max_attempts (attempt + 1)).2 + 1)
        else (.excExhausted msg, 1)
    | .jobStatus s loc em =>
        if s = "SUCCESS" then (.success loc, 1)
        else if s = "FAILED" then (.jobFailed em, 1)
        else if s = "CANCELLED" then (.cancelled, 1)
        else ((waitGo polls max_attempts (attempt + 1)).1,
              (waitGo polls max_attempts (attempt + 1)).2 + 1)
  else (.timeout, 0)
termination_by max_attempts - attempt
decreasing_by all_goals omega

/-- Model of wait_for_job_completion: run the poll loop from attempt 0. -/
def wait_for_job_completion (polls : Nat → PollResponse) (max_attempts : Nat) :
    WaitResult × Nat :=
  waitGo polls max_attempts 0

/-- A status response that keeps the loop polling: a well-formed job status
other than the three terminal ones (e.g. RUNNING or SCHEDULED). -/
def nonTerminal : PollResponse → Bool
  | .apiErr _ => false
  | .malformed _ => false
  | .jobStatus s _ _ => !(s == "SUCCESS") && !(s == "FAILED") && !(s == "CANCELLED")

theorem waitGo_success (polls : Nat → PollResponse) (max_attempts a : Nat)
    (ha : a < max_attempts) (loc em : String)
    (hp : polls a = .jobStatus "SUCCESS" loc em) :
    waitGo polls max_attempts a = (.success loc, 1) := by
  rw [waitGo, dif_pos ha, hp]
  simp

theorem waitGo_failed (polls : Nat → PollResponse) (max_attempts a : Nat)
    (ha : a < max_attempts) (loc em : String)
    (hp : polls a = .jobStatus "FAILED" loc em) :
    waitGo polls max_attempts a = (.jobFailed em, 1) := by
  rw [waitGo, dif_pos ha, hp]
  simp

theorem waitGo_cancelled (polls : Nat → PollResponse) (max_attempts a : Nat)
    (ha : a < max_attempts) (loc em : String)
    (hp : polls a = .jobStatus "CANCELLED" loc em) :
    waitGo polls max_attempts a = (.cancelled, 1) := by
  rw [waitGo, dif_pos ha, hp]
  simp

theorem waitGo_skip (polls : Nat → PollResponse) (max_attempts : Nat) (k : Nat) :
    ∀ a, (∀ j, a ≤ j → j < a + k → nonTerminal (polls j) = true) →
      a + k ≤ max_attempts →
      waitGo polls max_attempts a =
        ((waitGo polls max_attempts (a + k)).1,
         (waitGo polls max_attempts (a + k)).2 + k) := by
  induction k with
  | zero =>
      intro a _ _
      simp
  | succ k ih =>
      intro a hnt hle
      have ha : a < max_attempts := by omega
      have hna : nonTerminal (polls a) = true := hnt a (by omega) (by omega)
      cases hp : polls a with
      | apiErr msg =>
          rw [hp] at hna
          simp [nonTerminal] at hna
      | malformed msg =>
          rw [hp] at hna
          simp [nonTerminal] at hna
      | jobStatus s loc em =>
          rw [hp] at hna
          simp only [nonTerminal, Bool.and_eq_true, Bool.not_eq_true', beq_eq_false_iff_ne,
            ne_eq] at hna
          rw [waitGo, dif_pos ha, hp]
          simp only [if_neg hna.1.1, if_neg hna.1.2, if_neg hna.2]
          have step := ih (a + 1) (fun j h1 h2 => hnt j (by omega) (by omega)) (by omega)
          rw [step]
          have harith : a + 1 + k = a + (k + 1) := by omega
          rw [harith]
          congr 1

theorem waitGo_timeout (polls : Nat → PollResponse) (max_attempts : Nat) :
    waitGo polls max_attempts max_attempts = (.timeout, 0) := by
  rw [waitGo, dif_neg (by omega)]

/-- C1: for every job, every max_attempts of at least 1, and every sequence
of poll responses: if the first k responses are non-terminal and response k
(with k < max_attempts) is SUCCESS, the loop returns success with that
response's reported s3_location after exactly k + 1 status calls; if
response k is instead FAILED or CANCELLED, the loop returns the
corresponding error immediately after exactly k + 1 status calls, making no
further calls; and if every response up to the attempt budget is
non-terminal, the loop makes exactly max_attempts status calls and returns
the timeout error. -/
theorem wait_for_job_completion_spec (polls : Nat → PollResponse)
    (max_attempts : Nat) (hmax : 1 ≤ max_attempts) :
    (∀ k loc em, k < max_attempts →
        (∀ j, j < k → nonTerminal (polls j) = true) →
        polls k = .jobStatus "SUCCESS" loc em →
        wait_for_job_completion polls max_attempts = (.success loc, k + 1)) ∧
    (∀ k loc em, k < max_attempts →
        (∀ j, j < k → nonTerminal (polls j) = true) →
        polls k = .jobStatus "FAILED" loc em →
        wait_for_job_completion polls max_attempts = (.jobFailed em, k + 1)) ∧
    (∀ k loc em, k < max_attempts →
        (∀ j, j < k → nonTerminal (polls j) = true) →
        polls k = .jobStatus "CANCELLED" loc em →
        wait_for_job_completion polls max_attempts = (.cancelled, k + 1)) ∧
    ((∀ j, j < max_attempts → nonTerminal (polls j) = true) →
        wait_for_job_completion polls max_attempts = (.timeout, max_attempts)) := by
  refine ⟨?_, ?_, ?_, ?_⟩
  · intro k loc em hk hpre hp
    rw [wait_for_job_completion,
      waitGo_skip polls max_attempts k 0 (fun j h1 h2 => hpre j (by omega)) (by omega)]
    rw [Nat.zero_add, waitGo_success polls max_attempts k hk loc em hp]
    rw [Nat.add_comm]
  · intro k loc em hk hpre hp
    rw [wait_for_job_completion,
      waitGo_skip polls max_attempts k 0 (fun j h1 h2 => hpre j (by omega)) (by omega)]
    rw [Nat.zero_add, waitGo_failed polls max_attempts k hk loc em hp]
    rw [Nat.add_comm]
  · intro k loc em hk hpre hp
    rw [wait_for_job_completion,
      waitGo_skip polls max_attempts k 0 (fun j h1 h2 => hpre j (by omega)) (by omega)]
    rw [Nat.zero_add, waitGo_cancelled polls max_attempts k hk loc em hp]
    rw [Nat.add_comm]
  · intro hall
    rw [wait_for_job_completion,
      waitGo_skip polls max_attempts max_attempts 0
        (fun j h1 h2 => hall j (by omega)) (by omega)]
    rw [Nat.zero_add, waitGo_timeout polls max_attempts]
    simp

/-- Poll oracle that reports RUNNING twice and then SUCCESS on the third
response. -/
def pollsRunningTwice : Nat → PollResponse := fun j =>
  if j < 2 then .jobStatus "RUNNING" "" ""
  else .jobStatus "SUCCESS" "s3://bucket/job-output/" ""

/-- Witness for wait_for_job_completion_spec: with SUCCESS on the third
poll, the loop returns that poll's s3_location after exactly 3 status calls. -/
theorem wait_for_job_completion_spec_witness :
    1 ≤ 5 ∧
    wait_for_job_completion pollsRunningTwice 5 =
      (.success "s3://bucket/job-output/", 3) :=
  ⟨by omega,
   (wait_for_job_completion_spec pollsRunningTwice 5 (by omega)).1 2
     "s3://bucket/job-output/" "" (by omega) (by decide) rfl⟩

/-- Credential triple parsed from the assume-role output
(utils.py lines 124 to 130). -/
structure Creds where
  access_key_id : String
  secret_access_key : String
  session_token : String
deriving DecidableEq

/-- The two module-level cache globals of utils.py (lines 81 and 82):
_veraset_credentials and _credential_expiry. A value of none models the
global being None; expiry is an absolute timestamp in seconds. -/
structure CredCache where
  veraset_credentials : Option Creds
  credential_expiry : Option Int
deriving DecidableEq

/-- The roles of the branch that assumes the role anew (utils.py lines 106
to 157): on a successful STS call the parsed credentials and expiry are
cached and returned; on a CalledProcessError the cache is cleared and the
exception propagates (modelled as Except.error). The third component counts
assume-role subprocess invocations. -/
def assumeAndCache (assume_role : Except String (Creds × Int)) :
    Except String Creds × CredCache × Nat :=
  match assume_role with
  | .ok (c, exp) => (.ok c, ⟨some c, some exp⟩, 1)
  | .error e => (.error e, ⟨none, none⟩, 1)

/-- Model of get_fresh_assumed_credentials from utils.py lines 85 to 157,
as a function of the cache state, the current time, and the outcome the
assume-role call would have. When both cache globals are set and the cached
expiry is more than 600 seconds away, the cached credentials are returned
unchanged with no assume-role call; otherwise the role is assumed anew. -/
def get_fresh_assumed_credentials (cache : CredCache) (now : Int)
    (assume_role : Except String (Creds × Int)) :
    Except String Creds × CredCache × Nat :=
  match cache.veraset_credentials, cache.credential_expiry with
  | some c, some exp =>
      if exp - now > 600 then (.ok c, cache, 0)
      else assumeAndCache assume_role
  | some _, none => assumeAndCache assume_role
  | none, _ => assumeAndCache assume_role

theorem get_fresh_assumed_credentials_cached (c : Creds) (exp now : Int)
    (assume_role : Except String (Creds × Int)) :
    get_fresh_assumed_credentials ⟨some c, some exp⟩ now assume_role =
      if exp - now > 600 then (.ok c, ⟨some c, some exp⟩, 0)
      else assumeAndCache assume_role := rfl

theorem get_fresh_assumed_credentials_no_creds (oe : Option Int) (now : Int)
    (assume_role : Except String (Creds × Int)) :
    get_fresh_assumed_credentials ⟨none, oe⟩ now assume_role =
      assumeAndCache assume_role := rfl

theorem get_fresh_assumed_credentials_no_expiry (c : Creds) (now : Int)
    (assume_role : Except String (Creds × Int)) :
    get_fresh_assumed_credentials ⟨some c, none⟩ now assume_role =
      assumeAndCache assume_role := rfl

theorem assumeAndCache_calls (assume_role : Except String (Creds × Int)) :
    (assumeAndCache assume_role).2.2 = 1 := by
  cases assume_role with
  | ok p =>
      obtain ⟨c, e⟩ := p
      rfl
  | error e => rfl

/-- C5: a credentials request returns the cached lease unchanged with zero
assume-role calls exactly when the cache holds a lease whose expiry is more
than 600 seconds (10 minutes) beyond the current time; in every other cache
state one assume-role call is made and, when it succeeds, the fresh lease
and its expiry are cached and returned. In particular a lease with 30
minutes (1800 seconds) remaining is reused without a call and a lease with
5 minutes (300 seconds) remaining triggers exactly one fresh call. -/
theorem get_fresh_assumed_credentials_spec (cache : CredCache) (now : Int)
    (assume_role : Except String (Creds × Int)) :
    ((get_fresh_assumed_credentials cache now assume_role).2.2 = 0 ↔
        ∃ c exp, cache.veraset_credentials = some c ∧
          cache.credential_expiry = some exp ∧ exp - now > 600) ∧
    (∀ c exp, cache.veraset_credentials = some c →
        cache.credential_expiry = some exp → exp - now > 600 →
        get_fresh_assumed_credentials cache now assume_role = (.ok c, cache, 0)) ∧
    ((¬ ∃ c exp, cache.veraset_credentials = some c ∧
          cache.credential_expiry = some exp ∧ exp - now > 600) →
        ∀ c2 exp2, assume_role = .ok (c2, exp2) →
        get_fresh_assumed_credentials cache now assume_role =
          (.ok c2, ⟨some c2, some exp2⟩, 1)) ∧
    (∀ c exp, cache.veraset_credentials = some c →
        cache.credential_expiry = some exp → exp - now = 1800 →
        (get_fresh_assumed_credentials cache now assume_role).2.2 = 0) ∧
    (∀ c exp, cache.veraset_credentials = some c →
        cache.credential_expiry = some exp → exp - now = 300 →
        (get_fresh_assumed_credentials cache now assume_role).2.2 = 1) := by
  obtain ⟨oc, oe⟩ := cache
  have hcalls := assumeAndCache_calls assume_role
  refine ⟨?_, ?_, ?_, ?_, ?_⟩
  · cases oc with
    | none =>
        rw [get_fresh_assumed_credentials_no_creds]
        simp [hcalls]
    | some c =>
        cases oe with
        | none =>
            rw [get_fresh_assumed_credentials_no_expiry]
            simp [hcalls]
        | some exp =>
            rw [get_fresh_assumed_credentials_cached]
            by_cases hgt : exp - now > 600
            · simp [hgt]
            · rw [if_neg hgt]
              simp [hcalls]
              omega
  · rintro c exp hc hexp hgt
    simp only at hc hexp
    subst hc
    subst hexp
    rw [get_fresh_assumed_credentials_cached, if_pos hgt]
  · intro hnot c2 exp2 har
    subst har
    cases oc with
    | none =>
        rw [get_fresh_assumed_credentials_no_creds]
        rfl
    | some c =>
        cases oe with
        | none =>
            rw [get_fresh_assumed_credentials_no_expiry]
            rfl
        | some exp =>
            have hgt : ¬ exp - now > 600 := fun hgt =>
              absurd ⟨c, exp, rfl, rfl, hgt⟩ hnot
            rw [get_fresh_assumed_credentials_cached, if_neg hgt]
            rfl
  · rintro c exp hc hexp h30
    simp only at hc hexp
    subst hc
    subst hexp
    rw [get_fresh_assumed_credentials_cached, if_pos (by omega)]
  · rintro c exp hc hexp h5
    simp only at hc hexp
    subst hc
    subst hexp
    rw [get_fresh_assumed_credentials_cached, if_neg (by omega)]
    exact hcalls

/-- Token-expiry test on line 311 of sync_logic.py: the stderr text contains
the substring ExpiredToken or TokenRefreshRequired. -/
def isTokenExpiredError (msg : String) : Bool :=
  pyInStr "ExpiredToken" msg || pyInStr "TokenRefreshRequired" msg

/-- Outcome of one iteration of the retry loop of
sync_data_to_bucket_chunked (sync_logic.py lines 254 to 327): the aws s3
sync subprocess succeeds copying some number of files, or exits nonzero
raising CalledProcessError with some stderr text, or some other exception
(for example a credential-acquisition failure) is raised. -/
inductive CopyOutcome where
  | ok (files_copied : Nat)
  | cliError (stderr : String)
  | exc (msg : String)

/-- Return value of sync_data_to_bucket_chunked, one constructor per return
statement: the success dict (line 305), the non-retried failure dict
reached from the CalledProcessError handler (line 319, also reached when
token retries are exhausted), the failure dict of the generic exception
handler after max_retries attempts (line 327), and the unreachable
fall-through dict after the loop (line 329). -/
inductive CopyResult where
  | success (files_copied : Nat)
  | syncFailed (stderr : String)
  | excFailed (msg : String)
  | exhausted

/-- Retry loop of sync_data_to_bucket_chunked. Because the loop continues
only right after incrementing retry_count, the iteration index always
equals retry_count, so the outcome oracle is indexed by it. Each iteration
obtains fresh credentials and launches one copy subprocess; the second
component counts iterations, hence both the copy attempts made and the
credential fetches performed. A CalledProcessError whose stderr shows a
token expiry retries while retry_count + 1 < 3; any other
CalledProcessError, and token expiries with the budget spent, return the
non-retried failure immediately. -/
def syncLoop (outcomes : Nat → CopyOutcome) (retry_count : Nat) :
    CopyResult × Nat :=
  if _h : retry_count < 3 then
    match outcomes retry_count with
    | .ok n => (.success n, 1)
    | .cliError msg =>
        if isTokenExpiredError msg = true ∧ retry_count + 1 < 3 then
          ((syncLoop outcomes (retry_count + 1)).1,
           (syncLoop outcomes (retry_count + 1)).2 + 1)
        else (.syncFailed msg, 1)
    | .exc msg =>
        if retry_count + 1 < 3 then
          ((syncLoop outcomes (retry_count + 1)).1,
           (syncLoop outcomes (retry_count + 1)).2 + 1)
        else (.excFailed msg, 1)
  else (.exhausted, 0)
termination_by 3 - retry_count
decreasing_by all_goals omega

/-- Model of the copy phase of sync_data_to_bucket_chunked: run the retry
loop with retry_count = 0. -/
def sync_data_to_bucket_chunked_copy (outcomes : Nat → CopyOutcome) :
    CopyResult × Nat :=
  syncLoop outcomes 0

theorem syncLoop_ok (outcomes : Nat → CopyOutcome) (rc n : Nat)
    (hrc : rc < 3) (hp : outcomes rc = .ok n) :
    syncLoop outcomes rc = (.success n, 1) := by
  rw [syncLoop, dif_pos hrc, hp]

theorem syncLoop_cli_stop (outcomes : Nat → CopyOutcome) (rc : Nat)
    (msg : String) (hrc : rc < 3) (hp : outcomes rc = .cliError msg)
    (hstop : ¬ (isTokenExpiredError msg = true ∧ rc + 1 < 3)) :
    syncLoop outcomes rc = (.syncFailed msg, 1) := by
  rw [syncLoop, dif_pos hrc, hp]
  simp only [if_neg hstop]

theorem syncLoop_cli_step (outcomes : Nat → CopyOutcome) (rc : Nat)
    (msg : String) (hrc1 : rc + 1 < 3) (hp : outcomes rc = .cliError msg)
    (htok : isTokenExpiredError msg = true) :
    syncLoop outcomes rc =
      ((syncLoop outcomes (rc + 1)).1, (syncLoop outcomes (rc + 1)).2 + 1) := by
  rw [syncLoop, dif_pos (by omega), hp]
  simp only [if_pos (And.intro htok hrc1)]

/-- C4: in the copy phase of sync_data_to_bucket_chunked, a copy attempt
that fails with an expired-token error is retried with freshly obtained
credentials, up to 3 total attempts; a copy failure that is not an
expired-token error is returned as a failed result immediately, with no
retry. Concretely: a non-token copy failure after k token-expired failures
(k < 3) stops after exactly k + 1 attempts; k token-expired failures
followed by a success return success with that attempt's file count after
exactly k + 1 attempts; and three token-expired failures in a row fail
after exactly 3 attempts, no more. -/
theorem sync_copy_retry_spec (outcomes : Nat → CopyOutcome) :
    (∀ k msg, k < 3 →
        (∀ j, j < k → ∃ m, outcomes j = .cliError m ∧ isTokenExpiredError m = true) →
        outcomes k = .cliError msg → isTokenExpiredError msg = false →
        sync_data_to_bucket_chunked_copy outcomes = (.syncFailed msg, k + 1)) ∧
    (∀ k n, k < 3 →
        (∀ j, j < k → ∃ m, outcomes j = .cliError m ∧ isTokenExpiredError m = true) →
        outcomes k = .ok n →
        sync_data_to_bucket_chunked_copy outcomes = (.success n, k + 1)) ∧
    ((∀ j, j < 3 → ∃ m, outcomes j = .cliError m ∧ isTokenExpiredError m = true) →
        ∃ m, sync_data_to_bucket_chunked_copy outcomes = (.syncFailed m, 3)) := by
  refine ⟨?_, ?_, ?_⟩
  · intro k msg hk hpre hp hnt
    rw [sync_data_to_bucket_chunked_copy]
    interval_cases k
    · rw [syncLoop_cli_stop outcomes 0 msg (by omega) hp (by simp [hnt])]
    · obtain ⟨m0, hm0, ht0⟩ := hpre 0 (by omega)
      rw [syncLoop_cli_step outcomes 0 m0 (by omega) hm0 ht0]
      rw [syncLoop_cli_stop outcomes 1 msg (by omega) hp (by simp [hnt])]
    · obtain ⟨m0, hm0, ht0⟩ := hpre 0 (by omega)
      obtain ⟨m1, hm1, ht1⟩ := hpre 1 (by omega)
      rw [syncLoop_cli_step outcomes 0 m0 (by omega) hm0 ht0]
      rw [syncLoop_cli_step outcomes 1 m1 (by omega) hm1 ht1]
      rw [syncLoop_cli_stop outcomes 2 msg (by omega) hp (by simp [hnt])]
  · intro k n hk hpre hp
    rw [sync_data_to_bucket_chunked_copy]
    interval_cases k
    · rw [syncLoop_ok outcomes 0 n (by omega) hp]
    · obtain ⟨m0, hm0, ht0⟩ := hpre 0 (by omega)
      rw [syncLoop_cli_step outcomes 0 m0 (by omega) hm0 ht0]
      rw [syncLoop_ok outcomes 1 n (by omega) hp]
    · obtain ⟨m0, hm0, ht0⟩ := hpre 0 (by omega)
      obtain ⟨m1, hm1, ht1⟩ := hpre 1 (by omega)
      rw [syncLoop_cli_step outcomes 0 m0 (by omega) hm0 ht0]
      rw [syncLoop_cli_step outcomes 1 m1 (by omega) hm1 ht1]
      rw [syncLoop_ok outcomes 2 n (by omega) hp]
  · intro hall
    obtain ⟨m0, hm0, ht0⟩ := hall 0 (by omega)
    obtain ⟨m1, hm1, ht1⟩ := hall 1 (by omega)
    obtain ⟨m2, hm2, ht2⟩ := hall 2 (by omega)
    refine ⟨m2, ?_⟩
    rw [sync_data_to_bucket_chunked_copy]
    rw [syncLoop_cli_step outcomes 0 m0 (by omega) hm0 ht0]
    rw [syncLoop_cli_step outcomes 1 m1 (by omega) hm1 ht1]
    rw [syncLoop_cli_stop outcomes 2 m2 (by omega) hm2 (by omega)]

/-- Copy-outcome oracle that hits a token expiry on the first attempt and
succeeds on the second. -/
def copyOutcomesEx : Nat → CopyOutcome := fun j =>
  if j = 0 then .cliError "An error occurred ExpiredToken when calling CopyObject"
  else .ok 12

/-- Witness for sync_copy_retry_spec: one expired-token failure, then a
successful copy on attempt 2 of the 3 allowed. -/
theorem sync_copy_retry_spec_witness :
    (1 : Nat) < 3 ∧
    sync_data_to_bucket_chunked_copy copyOutcomesEx = (.success 12, 2) :=
  ⟨by omega,
   (sync_copy_retry_spec copyOutcomesEx).2.1 1 12 (by omega)
     (by
       intro j hj
       interval_cases j
       exact ⟨"An error occurred ExpiredToken when calling CopyObject",
         rfl, by decide⟩)
     rfl⟩

/-- Normalization applied to each path component on lines 231 to 233 of
sync_logic.py: strip, then lower, then replace spaces by underscores. -/
def normalizeField (s : String) : String :=
  pyReplaceSpaceUnderscore (pyLower (pyStrip s))

/-- Destination prefix computed by sync_data_to_bucket_chunked
(sync_logic.py lines 231 to 237). Like the source function it receives the
sync date argument; the computation never reads it. The state component is
included exactly when it is nonempty after normalization (the truthiness
test if state on line 234). -/
def destPath (city : City) (date : Nat) : String :=
  let country := normalizeField city.country
  let state := normalizeField city.state_province
  let city_name := normalizeField city.city
  if state ≠ "" then "data/" ++ country ++ "/" ++ state ++ "/" ++ city_name
  else "data/" ++ country ++ "/" ++ city_name

/-- Destination prefix exactly as the claim words it: the fixed prefix
data/ followed by country, state when present, and name, each lower-cased
with spaces replaced by underscores (no whitespace trimming mentioned). -/
def claimDestPath (city : City) : String :=
  let country := pyReplaceSpaceUnderscore (pyLower city.country)
  let state := pyReplaceSpaceUnderscore (pyLower city.state_province)
  let city_name := pyReplaceSpaceUnderscore (pyLower city.city)
  if state ≠ "" then "data/" ++ country ++ "/" ++ state ++ "/" ++ city_name
  else "data/" ++ country ++ "/" ++ city_name

/-- Destination prefix as amended: each component is whitespace-trimmed
before lower-casing and space replacement, and the state component counts
as present when it is nonempty after that normalization. -/
def specDestPath (city : City) : String :=
  let country := normalizeField city.country
  let state := normalizeField city.state_province
  let city_name := normalizeField city.city
  if state ≠ "" then "data/" ++ country ++ "/" ++ state ++ "/" ++ city_name
  else "data/" ++ country ++ "/" ++ city_name

/-- City whose country field carries a trailing space. -/
def cityPaddedCountry : City :=
  { city := "Toronto"
    country := "Canada "
    state_province := ""
    latitude := 43
    longitude := -79
    radius_meters := some 50000
    polygon_geojson := none }

/-- C8 counterexample: the source strips each component before lower-casing
and replacing spaces, so for a country field with a trailing space the
computed prefix differs from the claim's formula, which lower-cases and
replaces spaces only: the code yields data/canada/toronto while the
claimed formula yields data/canada_/toronto. -/
theorem destPath_counterexample :
    destPath cityPaddedCountry 0 = "data/canada/toronto" ∧
    claimDestPath cityPaddedCountry = "data/canada_/toronto" ∧
    destPath cityPaddedCountry 0 ≠ claimDestPath cityPaddedCountry := by
  refine ⟨by decide, by decide, by decide⟩

/-- C8 (amended): the destination prefix is the fixed top-level prefix
data/ followed by the city's country, state/province (when nonempty after
normalization), and name, each whitespace-trimmed, lower-cased and with
spaces replaced by underscores; and it is completely independent of the
date argument: two invocations for the same city with different dates
compute the same destination prefix. -/
theorem destPath_spec (city : City) (d1 d2 : Nat) :
    destPath city d1 = destPath city d2 ∧
    destPath city d1 = specDestPath city :=
  ⟨rfl, rfl⟩

/-- Python truthiness of an optional JSON value, as in the test
if not request_id or not job_id on line 385 of sync_logic.py: a missing key
gives None (falsy); a present key is tested by value truthiness. -/
def optionTruthy (o : Option Json) : Bool :=
  match o with
  | some j => j.truthy
  | none => false

/-- Model of process_chunk inside sync_city_for_date (sync_logic.py lines
377 to 402), driven by oracles for the one POST response, the sequence of
job-status responses, and the sequence of copy-attempt outcomes. The first
step builds the payload from the city and immediately submits it via
make_api_request: there is no validation of the city's area of interest
anywhere on the path, so the second component, which counts vendor POST
requests issued, is 1 on every control path. The result mirrors the
source's return dicts: ok carries the destination prefix and the
files-copied count; error carries the message of the failing step. -/
def process_chunk (city : City) (chunk_start chunk_end schema : String)
    (date_ord : Nat) (api_response : Json) (polls : Nat → PollResponse)
    (copy_outcomes : Nat → CopyOutcome) :
    Except String (String × Nat) × Nat :=
  let _payload := build_sync_payload [city] chunk_start chunk_end schema
  if !api_response.truthy || api_response.hasKey "error" then
    (.error "No response from API or error in response", 1)
  else
    if !optionTruthy (api_response.get? "request_id") ||
        !optionTruthy (((api_response.get? "data").getD (Json.obj [])).get? "job_id") then
      (.error "No request_id or job_id in response", 1)
    else
      match wait_for_job_completion polls 200 with
      | (.success _, _) =>
          match sync_data_to_bucket_chunked_copy copy_outcomes with
          | (.success files, _) => (.ok (destPath city date_ord, files), 1)
          | _ => (.error "Error during S3 sync", 1)
      | _ => (.error "Error during job status polling", 1)

/-- City with neither a radius_meters key nor a polygon_geojson key. -/
def cityNoAoi : City :=
  { city := "Nowhere"
    country := "Atlantis"
    state_province := ""
    latitude := 0
    longitude := 0
    radius_meters := none
    polygon_geojson := none }

theorem process_chunk_always_requests (city : City)
    (chunk_start chunk_end schema : String) (date_ord : Nat)
    (api_response : Json) (polls : Nat → PollResponse)
    (copy_outcomes : Nat → CopyOutcome) :
    (process_chunk city chunk_start chunk_end schema date_ord api_response
        polls copy_outcomes).2 = 1 := by
  rw [process_chunk]
  repeat' split
  all_goals rfl

/-- C7 (the code lacks the claimed validation): for a city with both
radius_meters and polygon_geojson absent, build_sync_payload succeeds and
simply omits both geography arrays instead of failing, and process_chunk
still issues exactly one vendor API request for the chunk, whatever the
oracles answer; no validation failure is produced before the vendor
request. -/
theorem process_chunk_no_aoi_no_validation :
    (build_sync_payload [cityNoAoi] "2025-02-01" "2025-02-01" "FULL").geo_radius
        = none ∧
    (build_sync_payload [cityNoAoi] "2025-02-01" "2025-02-01" "FULL").geo_json
        = none ∧
    (∀ api_response polls copy_outcomes,
        (process_chunk cityNoAoi "2025-02-01" "2025-02-01" "FULL" 0 api_response
            polls copy_outcomes).2 = 1) :=
  ⟨rfl, rfl, fun api_response polls copy_outcomes =>
    process_chunk_always_requests cityNoAoi "2025-02-01" "2025-02-01" "FULL" 0
      api_response polls copy_outcomes⟩

/-- Outcome of one city's parallel copy task inside a (batch, chunk) pair
(sync_logic.py lines 478 to 539): either the copy succeeded with a
destination prefix and file count, or it failed (copy error or exception)
with an error message. The worker pool completes tasks in a
nondeterministic order; this model keeps submission order, which the claim
does not depend on. -/
inductive CityCopyOutcome where
  | copied (city dest : String) (files : Nat)
  | copyError (msg : String)

/-- The batch_results accumulator: per-city (city, dest_prefix,
files_copied) triples of the successful copies. -/
def citySuccesses : List CityCopyOutcome → List (String × String × Nat)
  | [] => []
  | .copied c d f :: rest => (c, d, f) :: citySuccesses rest
  | .copyError _ :: rest => citySuccesses rest

/-- The chunk_errors accumulator: messages of the failed copies. -/
def cityErrors : List CityCopyOutcome → List String
  | [] => []
  | .copied _ _ _ :: rest => cityErrors rest
  | .copyError m :: rest => m :: cityErrors rest

/-- Outcome of one (city-batch, date-chunk) pair of the loop in
sync_all_cities_for_date_range (sync_logic.py lines 437 to 557): the POST
failed or carried an error key (line 453), the response lacked request_id
or job_id (line 460), polling ended in an error (line 467), or the job
completed and the per-city copies ran with the given outcomes. -/
inductive PairOutcome where
  | apiError (msg : String)
  | missingIds
  | pollError (msg : String)
  | jobOk (s3_location job_id : String) (city_syncs : List CityCopyOutcome)

/-- Entry appended to all_results for a pair whose job completed
(sync_logic.py lines 546 to 553). -/
structure PairSuccess where
  s3_location : String
  job_id : String
  cities_results : List (String × String × Nat)

/-- The double loop of sync_all_cities_for_date_range, folded over the
sequence of pair outcomes in processing order: every failed pair
contributes one error entry and processing continues; every completed pair
contributes one all_results entry (even when some or all of its city copies
failed) plus one error entry per failed city copy. Returns
(all_results, errors). -/
def processPairs : List PairOutcome → List PairSuccess × List String
  | [] => ([], [])
  | p :: ps =>
      match p with
      | .apiError m => ((processPairs ps).1, m :: (processPairs ps).2)
      | .missingIds =>
          ((processPairs ps).1,
           "No request_id or job_id in response" :: (processPairs ps).2)
      | .pollError m => ((processPairs ps).1, m :: (processPairs ps).2)
      | .jobOk loc jid cs =>
          (⟨loc, jid, citySuccesses cs⟩ :: (processPairs ps).1,
           cityErrors cs ++ (processPairs ps).2)

/-- Final value of sync_all_cities_for_date_range, one constructor per
return statement: the all-failed dict on line 563, and the success dicts on
line 564 with and without an errors key. -/
inductive SyncAllResult where
  | failure (error : String)
  | successWithErrors (results : List PairSuccess) (errors : List String)
      (total_batches : Nat)
  | successClean (results : List PairSuccess) (total_batches : Nat)

/-- True for the return values whose success field is True. -/
def reportsSuccess : SyncAllResult → Bool
  | .failure _ => false
  | .successWithErrors _ _ _ => true
  | .successClean _ _ => true

/-- Number of (city-batch, date-chunk) pairs the orchestrator iterates
over: city batches of 200 times 31-day date chunks (the total_batches
variable of the source). -/
def sync_all_total (cities : List City) (from_date to_date : Nat) : Nat :=
  (chunk_cities 200 cities).length * (split_date_range from_date to_date 31).length

/-- The pair outcomes the orchestrator observes, in processing order
(batches outer, chunks inner, flattened row-major). -/
def sync_all_pairs (cities : List City) (from_date to_date : Nat)
    (outcome : Nat → PairOutcome) : List PairOutcome :=
  (List.range (sync_all_total cities from_date to_date)).map outcome

/-- Model of sync_all_cities_for_date_range (sync_logic.py lines 419 to
564): process every pair, then return failure when there are errors and no
completed pair, success with the error list when there are errors and at
least one completed pair, and plain success otherwise. -/
def sync_all_cities_for_date_range (cities : List City) (from_date to_date : Nat)
    (outcome : Nat → PairOutcome) : SyncAllResult :=
  if !(processPairs (sync_all_pairs cities from_date to_date outcome)).2.isEmpty &&
      (processPairs (sync_all_pairs cities from_date to_date outcome)).1.isEmpty then
    .failure (String.intercalate "; "
      (processPairs (sync_all_pairs cities from_date to_date outcome)).2)
  else if !(processPairs (sync_all_pairs cities from_date to_date outcome)).2.isEmpty then
    .successWithErrors
      (processPairs (sync_all_pairs cities from_date to_date outcome)).1
      (processPairs (sync_all_pairs cities from_date to_date outcome)).2
      (sync_all_total cities from_date to_date)
  else
    .successClean
      (processPairs (sync_all_pairs cities from_date to_date outcome)).1
      (sync_all_total cities from_date to_date)

/-- True for pair outcomes whose job completed, that is the pairs the
source appends to all_results. -/
def isJobOk : PairOutcome → Bool
  | .jobOk _ _ _ => true
  | _ => false

/-- The all_results entry a pair outcome produces, if any. -/
def pairSuccessOf : PairOutcome → Option PairSuccess
  | .jobOk loc jid cs => some ⟨loc, jid, citySuccesses cs⟩
  | _ => none

/-- Number of error entries a pair outcome contributes beyond the
pair-level one: the failed city copies of a completed pair. -/
def pairCityErrorCount : PairOutcome → Nat
  | .jobOk _ _ cs => (cityErrors cs).length
  | _ => 0

theorem processPairs_results (ps : List PairOutcome) :
    (processPairs ps).1 = ps.filterMap pairSuccessOf := by
  induction ps with
  | nil => rfl
  | cons p ps ih =>
      cases p <;> simp [processPairs, pairSuccessOf, List.filterMap_cons, ih]

theorem processPairs_errors_length (ps : List PairOutcome) :
    (processPairs ps).2.length =
      ps.countP (fun p => !isJobOk p) + (ps.map pairCityErrorCount).sum := by
  induction ps with
  | nil => rfl
  | cons p ps ih =>
      cases p <;>
        simp [processPairs, isJobOk, pairCityErrorCount, List.countP_cons, ih] <;>
        omega

/-- C6 (amended): the orchestrator reports overall success if and only if
at least one (city-batch, date-chunk) pair completed or no per-pair error
occurred at all (so an input yielding zero pairs reports success
vacuously); whenever errors occurred and some pair completed, the returned
value carries the full error list alongside the per-city file-copy counts
of the completed pairs; when errors occurred and no pair completed it
reports failure carrying the joined errors; and no pair failure aborts
processing: the results are exactly the completed pairs of the whole
outcome sequence, in order, and the error list accounts for every failed
pair and every failed city copy of the whole sequence. -/
theorem sync_all_cities_for_date_range_spec (cities : List City)
    (from_date to_date : Nat) (outcome : Nat → PairOutcome) :
    (reportsSuccess (sync_all_cities_for_date_range cities from_date to_date outcome)
        = true ↔
      (processPairs (sync_all_pairs cities from_date to_date outcome)).1 ≠ [] ∨
      (processPairs (sync_all_pairs cities from_date to_date outcome)).2 = []) ∧
    ((processPairs (sync_all_pairs cities from_date to_date outcome)).2 ≠ [] →
      (processPairs (sync_all_pairs cities from_date to_date outcome)).1 ≠ [] →
      sync_all_cities_for_date_range cities from_date to_date outcome =
        .successWithErrors
          (processPairs (sync_all_pairs cities from_date to_date outcome)).1
          (processPairs (sync_all_pairs cities from_date to_date outcome)).2
          (sync_all_total cities from_date to_date)) ∧
    ((processPairs (sync_all_pairs cities from_date to_date outcome)).2 = [] →
      sync_all_cities_for_date_range cities from_date to_date outcome =
        .successClean
          (processPairs (sync_all_pairs cities from_date to_date outcome)).1
          (sync_all_total cities from_date to_date)) ∧
    ((processPairs (sync_all_pairs cities from_date to_date outcome)).2 ≠ [] →
      (processPairs (sync_all_pairs cities from_date to_date outcome)).1 = [] →
      sync_all_cities_for_date_range cities from_date to_date outcome =
        .failure (String.intercalate "; "
          (processPairs (sync_all_pairs cities from_date to_date outcome)).2)) ∧
    (processPairs (sync_all_pairs cities from_date to_date outcome)).1 =
      (sync_all_pairs cities from_date to_date outcome).filterMap pairSuccessOf ∧
    (processPairs (sync_all_pairs cities from_date to_date outcome)).2.length =
      (sync_all_pairs cities from_date to_date outcome).countP (fun p => !isJobOk p)
        + ((sync_all_pairs cities from_date to_date outcome).map
            pairCityErrorCount).sum := by
  refine ⟨?_, ?_, ?_, ?_,
    processPairs_results (sync_all_pairs cities from_date to_date outcome),
    processPairs_errors_length (sync_all_pairs cities from_date to_date outcome)⟩
  · by_cases he : (processPairs (sync_all_pairs cities from_date to_date outcome)).2 = []
    · simp [sync_all_cities_for_date_range, he, reportsSuccess]
    · by_cases hr :
        (processPairs (sync_all_pairs cities from_date to_date outcome)).1 = []
      · simp [sync_all_cities_for_date_range, he, hr, reportsSuccess]
      · simp [sync_all_cities_for_date_range, he, hr, reportsSuccess]
  · intro he hr
    simp [sync_all_cities_for_date_range, he, hr]
  · intro he
    simp [sync_all_cities_for_date_range, he]
  · intro he hr
    simp [sync_all_cities_for_date_range, he, hr]

/-- C6 counterexample to the claim as stated: for the empty city list the
orchestrator iterates over zero (city-batch, date-chunk) pairs, so no pair
succeeded, yet the source returns the success dict (with an empty results
list) rather than a failure. -/
theorem sync_all_counterexample :
    sync_all_pairs [] 0 0 (fun _ => PairOutcome.missingIds) = [] ∧
    reportsSuccess (sync_all_cities_for_date_range [] 0 0
        (fun _ => PairOutcome.missingIds)) = true ∧
    sync_all_cities_for_date_range [] 0 0 (fun _ => PairOutcome.missingIds) =
      .successClean [] 0 := by
  have hchunk : chunk_cities 200 ([] : List City) = [] := by
    rw [chunk_cities, dif_pos (by simp)]
  have htotal : sync_all_total [] 0 0 = 0 := by
    rw [sync_all_total, hchunk]
    simp
  have hpairs : sync_all_pairs [] 0 0 (fun _ => PairOutcome.missingIds) = [] := by
    rw [sync_all_pairs, htotal]
    rfl
  refine ⟨hpairs, ?_, ?_⟩
  · simp [sync_all_cities_for_date_range, hpairs, processPairs, reportsSuccess]
  · simp [sync_all_cities_for_date_range, hpairs, processPairs, htotal]
